import Mathlib

/-!
# Directus RHI: shader macro table, constant-buffer update, Vulkan device construction

A shallow embedding of `Engine/RHI/RHI_Shader.cpp` and
`Engine/RHI/Vulkan/Vulkan_Device.cpp`.

* Strings are `String`, byte regions are `List Nat`, `unsigned int` sizes are `Nat`.
* A nullable pointer is an `Option`; `nullptr` is `none`.
* Calls into collaborators that the translated functions make (the constant buffer's
  `Map`/`Unmap`, the logger, the Vulkan loader, the settings store) are recorded, in
  call order, in an explicit list of operations next to the returned value.
-/

namespace Directus

/-! ## Logging -/

/-- Modelled from the spec: the `Log_Type` enumeration of `Logging/Log.h`, which is not
among the translated sources; the three severities the sources use. -/
inductive Log_Type
  | Log_Info
  | Log_Warning
  | Log_Error
  deriving DecidableEq, Repr

/-! ## RHI_Shader -/

/-- Entries of a `std::map<std::string, std::string>` as an association list. -/
abbrev MacroEntries := List (String × String)

/-- Modelled from the spec: the declaration of `m_macros` lives in `RHI_Shader.h`, which is
not among the translated sources. The spec describes it as a mapping of macro-define
name to value with unique keys, which is what a `std::map` is: an association list
together with the container invariant that no key occurs twice. -/
structure MacroTable where
  entries : MacroEntries
  keys_unique : (entries.map Prod.fst).Nodup

/-- The element access of `std::map::operator[]`: an absent key is first inserted with a
value-initialised (empty) string; a present key leaves the container as it is. -/
def MacroEntries.subscript (es : MacroEntries) (key : String) : MacroEntries :=
  if key ∈ es.map Prod.fst then es else es ++ [(key, "")]

/-- Assignment through the reference that `operator[]` returned: the mapped value stored
under `key` becomes `value`. -/
def MacroEntries.assign (es : MacroEntries) (key value : String) : MacroEntries :=
  es.map (fun e => if e.1 = key then (e.1, value) else e)

/-- The statement `m_macros[define] = value;` on the container. -/
def MacroTable.set (m : MacroTable) (define value : String) : MacroTable where
  entries := (m.entries.subscript define).assign define value
  keys_unique := by
    have hkeys : ∀ es : MacroEntries,
        (es.assign define value).map Prod.fst = es.map Prod.fst := by
      intro es
      induction es with
      | nil => rfl
      | cons e es ih =>
        simp only [MacroEntries.assign, List.map_cons] at ih ⊢
        rw [ih]
        by_cases h : e.1 = define <;> simp [h]
    rw [hkeys]
    unfold MacroEntries.subscript
    by_cases hk : define ∈ m.entries.map Prod.fst
    · rw [if_pos hk]; exact m.keys_unique
    · rw [if_neg hk, List.map_append]
      refine List.Nodup.append m.keys_unique (List.nodup_singleton _) ?_
      intro a ha hb
      simp only [List.map_cons, List.map_nil, List.mem_singleton] at hb
      exact hk (hb ▸ ha)

/-- The entries stored under `name`. -/
def MacroTable.entriesFor (m : MacroTable) (name : String) : MacroEntries :=
  m.entries.filter (fun e => decide (e.1 = name))

/-- The empty container. -/
def MacroTable.empty : MacroTable where
  entries := []
  keys_unique := List.nodup_nil

/-- Modelled from the spec: `RHI_ConstantBuffer` is declared and implemented outside the
translated sources. `Map()` returns a writable pointer to the buffer's memory or a null
result, `Unmap()` reports success as a boolean. The outcome of the two backend calls is
data of the buffer: `map_succeeds` and `unmap_succeeds`. -/
structure RHI_ConstantBuffer where
  memory : List Nat
  map_succeeds : Bool
  unmap_succeeds : Bool
  deriving DecidableEq, Repr

/-- The call `m_constant_buffer->Map()`: the mapped region, or `none` for a null pointer. -/
def RHI_ConstantBuffer.Map (b : RHI_ConstantBuffer) : Option (List Nat) :=
  if b.map_succeeds then some b.memory else none

/-- The call `m_constant_buffer->Unmap()`. -/
def RHI_ConstantBuffer.Unmap (b : RHI_ConstantBuffer) : Bool :=
  b.unmap_succeeds

/-- The call `memcpy(dst, src, n)`: the first `n` bytes of `dst` are replaced by the first
`n` bytes of `src`. C leaves the call undefined unless both regions hold `n` bytes. -/
def memcpy (dst src : List Nat) (n : Nat) : List Nat :=
  src.take n ++ dst.drop n

/-- The fields of `RHI_Shader` that `AddDefine` and `UpdateBuffer` touch. -/
structure RHI_Shader where
  m_macros : MacroTable
  m_constant_buffer : Option RHI_ConstantBuffer
  m_buffer_size : Nat

/-- Operations `UpdateBuffer` performs on its collaborators, in call order. -/
inductive BufferOp
  | Map
  | Memcpy (size : Nat)
  | Unmap
  | Log (type : Log_Type) (text : String)
  deriving DecidableEq, Repr

/-- What a call of `UpdateBuffer` leaves behind: the returned boolean, the constant buffer
afterwards, and the operations performed. -/
structure UpdateBufferOutcome where
  result : Bool
  constant_buffer : Option RHI_ConstantBuffer
  ops : List BufferOp
  deriving DecidableEq, Repr

/-- The method `void RHI_Shader::AddDefine(const std::string& define, const std::string& value)`. -/
def RHI_Shader.AddDefine (this : RHI_Shader) (define value : String) : RHI_Shader :=
  { this with m_macros := this.m_macros.set define value }

/-- The method `bool RHI_Shader::UpdateBuffer(void* data) const`; `data` is `none` for a null
pointer and otherwise the bytes it points to. The text that the macro
`LOG_ERROR_INVALID_PARAMETER()` logs is defined in `Logging/Log.h`, outside the
translated sources; only its level is taken from the macro's name. -/
def RHI_Shader.UpdateBuffer (this : RHI_Shader) (data : Option (List Nat)) :
    UpdateBufferOutcome :=
  match data with
  | none =>
    { result := false, constant_buffer := this.m_constant_buffer,
      ops := [BufferOp.Log Log_Type.Log_Error "Invalid parameter"] }
  | some bytes =>
    match this.m_constant_buffer with
    | none =>
      { result := false, constant_buffer := none,
        ops := [BufferOp.Log Log_Type.Log_Warning "Uninitialized buffer."] }
    | some cb =>
      match cb.Map with
      | some buffer =>
        let written : RHI_ConstantBuffer :=
          { cb with memory := memcpy buffer bytes this.m_buffer_size }
        let result := written.Unmap
        { result := result, constant_buffer := some written,
          ops := [BufferOp.Map, BufferOp.Memcpy this.m_buffer_size, BufferOp.Unmap] ++
            (if result then [] else [BufferOp.Log Log_Type.Log_Error "Failed to map buffer"]) }
      | none =>
        { result := false, constant_buffer := some cb,
          ops := [BufferOp.Map, BufferOp.Log Log_Type.Log_Error "Failed to map buffer"] }

/-- The bytes held by a (possibly absent) constant buffer. -/
def bufferMemory (b : Option RHI_ConstantBuffer) : List Nat :=
  match b with
  | none => []
  | some cb => cb.memory

/-! ## Vulkan constants

Values of the enumerators and macros of `vulkan_core.h` that the sources use. -/

/-- The constant `VK_SUCCESS` of the Vulkan headers. -/
def VK_SUCCESS : Int := 0

/-- The constant `VK_ERROR_EXTENSION_NOT_PRESENT` of the Vulkan headers. -/
def VK_ERROR_EXTENSION_NOT_PRESENT : Int := -7

/-- The constant `VK_FALSE` of the Vulkan headers. -/
def VK_FALSE : Nat := 0

/-- The constant `VK_NULL_HANDLE` of the Vulkan headers. -/
def VK_NULL_HANDLE : Nat := 0

/-- The constant `VK_DEBUG_UTILS_MESSAGE_SEVERITY_VERBOSE_BIT_EXT` of the Vulkan headers. -/
def VK_DEBUG_UTILS_MESSAGE_SEVERITY_VERBOSE_BIT_EXT : Nat := 0x00000001

/-- The constant `VK_DEBUG_UTILS_MESSAGE_SEVERITY_INFO_BIT_EXT` of the Vulkan headers. -/
def VK_DEBUG_UTILS_MESSAGE_SEVERITY_INFO_BIT_EXT : Nat := 0x00000010

/-- The constant `VK_DEBUG_UTILS_MESSAGE_SEVERITY_WARNING_BIT_EXT` of the Vulkan headers. -/
def VK_DEBUG_UTILS_MESSAGE_SEVERITY_WARNING_BIT_EXT : Nat := 0x00000100

/-- The constant `VK_DEBUG_UTILS_MESSAGE_SEVERITY_ERROR_BIT_EXT` of the Vulkan headers. -/
def VK_DEBUG_UTILS_MESSAGE_SEVERITY_ERROR_BIT_EXT : Nat := 0x00001000

/-- The constant `VK_PHYSICAL_DEVICE_TYPE_OTHER` of the Vulkan headers. -/
def VK_PHYSICAL_DEVICE_TYPE_OTHER : Nat := 0

/-- The constant `VK_PHYSICAL_DEVICE_TYPE_INTEGRATED_GPU` of the Vulkan headers. -/
def VK_PHYSICAL_DEVICE_TYPE_INTEGRATED_GPU : Nat := 1

/-- The constant `VK_PHYSICAL_DEVICE_TYPE_DISCRETE_GPU` of the Vulkan headers. -/
def VK_PHYSICAL_DEVICE_TYPE_DISCRETE_GPU : Nat := 2

/-- The constant `VK_PHYSICAL_DEVICE_TYPE_VIRTUAL_GPU` of the Vulkan headers. -/
def VK_PHYSICAL_DEVICE_TYPE_VIRTUAL_GPU : Nat := 3

/-- The constant `VK_PHYSICAL_DEVICE_TYPE_CPU` of the Vulkan headers. -/
def VK_PHYSICAL_DEVICE_TYPE_CPU : Nat := 4

/-- The macro `VK_MAKE_VERSION(major, minor, patch)`, a 32-bit value. -/
def VK_MAKE_VERSION (major minor patch : Nat) : Nat :=
  ((major <<< 22) ||| (minor <<< 12) ||| patch) % 2 ^ 32

/-- The constant `VK_API_VERSION_1_0` of the Vulkan headers. -/
def VK_API_VERSION_1_0 : Nat := VK_MAKE_VERSION 1 0 0

/-- The constant `VK_EXT_DEBUG_UTILS_EXTENSION_NAME` of the Vulkan headers. -/
def VK_EXT_DEBUG_UTILS_EXTENSION_NAME : String := "VK_EXT_debug_utils"

/-- Conversion of an integer operand of `||` to a truth value: non-zero is true. -/
def cTruth (n : Nat) : Bool := n != 0

/-- The call `strcmp(a, b)` on C strings: zero exactly when the two are equal. -/
def strcmp (a b : String) : Int :=
  if a = b then 0 else if a < b then -1 else 1

/-! ## Vulkan_Device -/

/-- The `layerName` field of `VkLayerProperties`. -/
structure VkLayerProperties where
  layerName : String
  deriving DecidableEq, Repr

/-- A physical adapter: its handle and the `deviceType` that
`vkGetPhysicalDeviceProperties` reports for it. -/
structure VkPhysicalDevice where
  handle : Nat
  deviceType : Nat
  deriving DecidableEq, Repr

/-- What the Vulkan runtime answers to the calls the device constructor makes. -/
structure VulkanRuntime where
  availableLayers : List VkLayerProperties
  createInstanceResult : Int
  availableExtensions : List String
  createMessengerEntryPoint : Bool
  createMessengerResult : Int
  physicalDevices : List VkPhysicalDevice
  deriving DecidableEq, Repr

/-- Operations the device code performs on its collaborators (the Vulkan runtime, the
logger, the settings store), in call order. -/
inductive DeviceOp
  | Log (type : Log_Type) (text : String)
  | vkEnumerateInstanceLayerProperties
  | vkCreateInstance (enabledLayerCount : Nat) (enabledExtensions : List String)
  | vkEnumerateInstanceExtensionProperties
  | vkGetInstanceProcAddr (name : String)
  | vkCreateDebugUtilsMessengerEXT
  | vkEnumeratePhysicalDevices
  | vkGetPhysicalDeviceProperties (device : Nat)
  | vkGetPhysicalDeviceFeatures (device : Nat)
  | SetVersionGraphicsAPI (version : String)
  deriving DecidableEq, Repr

/-- The inner loop of `AcquireValidationLayers`: whether `layerName` compares equal to
the name of one of the available layers. -/
def layerAvailable (layerName : String) : List VkLayerProperties → Bool
  | [] => false
  | layerProperties :: rest =>
    if strcmp layerName layerProperties.layerName = 0 then true
    else layerAvailable layerName rest

/-- The outer loop of `AcquireValidationLayers`: returns at the first requested name
that the inner loop finds. -/
def anyLayerAvailable (availableLayers : List VkLayerProperties) : List String → Bool
  | [] => false
  | layerName :: rest =>
    if layerAvailable layerName availableLayers then true
    else anyLayerAvailable availableLayers rest

/-- The function `bool Vulkan_Device::AcquireValidationLayers(const std::vector<const char*>&)`. -/
def AcquireValidationLayers (vk : VulkanRuntime) (validationLayers : List String) :
    Bool × List DeviceOp :=
  let enumerated :=
    [DeviceOp.vkEnumerateInstanceLayerProperties, DeviceOp.vkEnumerateInstanceLayerProperties]
  if anyLayerAvailable vk.availableLayers validationLayers then (true, enumerated)
  else (false, enumerated ++
    [DeviceOp.Log Log_Type.Log_Error "Validation layer was requested, but not available."])

/-- The function `VkResult Vulkan_Device::CreateDebugUtilsMessengerEXT(...)`. -/
def CreateDebugUtilsMessengerEXT (vk : VulkanRuntime) : Int × List DeviceOp :=
  if vk.createMessengerEntryPoint then
    (vk.createMessengerResult,
      [DeviceOp.vkGetInstanceProcAddr "vkCreateDebugUtilsMessengerEXT",
       DeviceOp.vkCreateDebugUtilsMessengerEXT])
  else
    (VK_ERROR_EXTENSION_NOT_PRESENT,
      [DeviceOp.vkGetInstanceProcAddr "vkCreateDebugUtilsMessengerEXT"])

/-- What a call of `debugCallback` does: the text and level handed to `Log::Write`, and
the returned `VkBool32`. -/
structure DebugCallbackOutcome where
  text : String
  type : Log_Type
  returned : Nat
  deriving DecidableEq, Repr

/-- The function `VkBool32 Vulkan_Device::debugCallback(messageSeverity, messageType, pCallbackData,
pUserData)`; `pMessage` is the message of the callback data. -/
def debugCallback (messageSeverity _messageType : Nat) (pMessage : String) :
    DebugCallbackOutcome :=
  let type := Log_Type.Log_Info
  let type :=
    if messageSeverity = VK_DEBUG_UTILS_MESSAGE_SEVERITY_WARNING_BIT_EXT
    then Log_Type.Log_Warning else type
  let type :=
    if messageSeverity = VK_DEBUG_UTILS_MESSAGE_SEVERITY_ERROR_BIT_EXT
    then Log_Type.Log_Error else type
  { text := "Vulkan: " ++ pMessage, type := type, returned := VK_FALSE }

/-- The function `bool Vulkan_Device::isDeviceSuitable(VkPhysicalDevice device)`: the returned
boolean and the two property queries. The returned expression is
`deviceType == DISCRETE_GPU || INTEGRATED_GPU || CPU`, whose last two operands are the
enumerators themselves. -/
def isDeviceSuitable (device : VkPhysicalDevice) : Bool × List DeviceOp :=
  (device.deviceType == VK_PHYSICAL_DEVICE_TYPE_DISCRETE_GPU
      || cTruth VK_PHYSICAL_DEVICE_TYPE_INTEGRATED_GPU
      || cTruth VK_PHYSICAL_DEVICE_TYPE_CPU,
    [DeviceOp.vkGetPhysicalDeviceProperties device.handle,
     DeviceOp.vkGetPhysicalDeviceFeatures device.handle])

/-- The global `Vulkan_Device::validationLayers`. -/
def validationLayers : List String := ["VK_LAYER_LUNARG_standard_validation"]

/-- The global `Vulkan_Device::extensions` (the same list with and without `DEBUG`). -/
def extensions : List String := ["VK_KHR_win32_surface", VK_EXT_DEBUG_UTILS_EXTENSION_NAME]

/-! ## RHI_Device -/

/-- The state the constructor leaves behind: the member `m_initialized`, the globals
`Vulkan_Device::instance` (whether one was created), `Vulkan_Device::device` and
`Vulkan_Device::callback` (whether a messenger was created), the settings store's
`m_versionGraphicsAPI`, and the operations performed. -/
structure RHI_Device where
  m_initialized : Bool
  instance_created : Bool
  device : Nat
  callback_created : Bool
  m_versionGraphicsAPI : String
  ops : List DeviceOp
  deriving DecidableEq, Repr

/-- The loop `for (const auto& device : devices)` of the constructor, entered with
`Vulkan_Device::device == VK_NULL_HANDLE`: the handle stored in `Vulkan_Device::device`
when the loop ends, and the queries made on the way. -/
def selectDevice : List VkPhysicalDevice → Nat × List DeviceOp
  | [] => (VK_NULL_HANDLE, [])
  | device :: rest =>
    let suitable := isDeviceSuitable device
    if suitable.1 then (device.handle, suitable.2)
    else
      let later := selectDevice rest
      (later.1, suitable.2 ++ later.2)

/-- The string `to_string(VK_API_VERSION_1_0)` that the constructor records. -/
def versionGraphicsAPI : String := toString VK_API_VERSION_1_0

/-- The constructor `RHI_Device::RHI_Device(void* drawHandle)`.

`validationLayerEnabled` is the compile-time constant of that name (true under `DEBUG`),
`vk` the answers of the Vulkan runtime, `settings` the value of
`Settings::Get().m_versionGraphicsAPI` before the call. Modelled from the spec:
`RHI_Device.h` is not among the translated sources; a device starts with
`m_initialized == false`. -/
def RHI_Device.construct (validationLayerEnabled : Bool) (vk : VulkanRuntime)
    (settings : String) : RHI_Device :=
  -- Validation layer
  let acquired :=
    if validationLayerEnabled then AcquireValidationLayers vk validationLayers
    else (false, [])
  let validationLayerAvailable := acquired.1
  -- Create instance
  let enabledLayerCount := if validationLayerAvailable then validationLayers.length else 0
  let ops := acquired.2 ++ [DeviceOp.vkCreateInstance enabledLayerCount extensions]
  if vk.createInstanceResult ≠ VK_SUCCESS then
    { m_initialized := false, instance_created := false, device := VK_NULL_HANDLE,
      callback_created := false, m_versionGraphicsAPI := settings,
      ops := ops ++ [DeviceOp.Log Log_Type.Log_Error "Failed to create instance."] }
  else
    -- Get available extensions
    let ops := ops ++
      [DeviceOp.vkEnumerateInstanceExtensionProperties,
       DeviceOp.vkEnumerateInstanceExtensionProperties] ++
      vk.availableExtensions.map
        (fun extension => DeviceOp.Log Log_Type.Log_Info ("Available extension: " ++ extension))
    -- Callback
    let messenger :=
      if validationLayerEnabled then
        let created := CreateDebugUtilsMessengerEXT vk
        if created.1 ≠ VK_SUCCESS then
          (false, created.2 ++
            [DeviceOp.Log Log_Type.Log_Error "Failed to setup debug callback"])
        else (true, created.2)
      else (false, [])
    let ops := ops ++ messenger.2
    -- Device
    let ops := ops ++ [DeviceOp.vkEnumeratePhysicalDevices]
    let deviceCount := vk.physicalDevices.length
    if deviceCount = 0 then
      { m_initialized := false, instance_created := true, device := VK_NULL_HANDLE,
        callback_created := messenger.1, m_versionGraphicsAPI := settings,
        ops := ops ++
          [DeviceOp.Log Log_Type.Log_Error "Failed to enumerate physical devices."] }
    else
      let ops := ops ++ [DeviceOp.vkEnumeratePhysicalDevices]
      let selected := selectDevice vk.physicalDevices
      let ops := ops ++ selected.2
      if selected.1 = VK_NULL_HANDLE then
        { m_initialized := false, instance_created := true, device := VK_NULL_HANDLE,
          callback_created := messenger.1, m_versionGraphicsAPI := settings,
          ops := ops ++
            [DeviceOp.Log Log_Type.Log_Error "Failed to find a suitable device."] }
      else
        { m_initialized := true, instance_created := true, device := selected.1,
          callback_created := messenger.1, m_versionGraphicsAPI := versionGraphicsAPI,
          ops := ops ++
            [DeviceOp.SetVersionGraphicsAPI versionGraphicsAPI,
             DeviceOp.Log Log_Type.Log_Info versionGraphicsAPI] }

/-- The method `bool RHI_Device::Draw(unsigned int vertex_count) const`. -/
def RHI_Device.Draw (_this : RHI_Device) (_vertex_count : Nat) : Bool := true

/-- The method `bool RHI_Device::DrawIndexed(index_count, index_offset, vertex_offset) const`. -/
def RHI_Device.DrawIndexed (_this : RHI_Device)
    (_index_count _index_offset _vertex_offset : Nat) : Bool := true

/-- The method `bool RHI_Device::SetVertexBuffer(buffer) const`; a shared pointer is an
optional object id. -/
def RHI_Device.SetVertexBuffer (_this : RHI_Device) (_buffer : Option Nat) : Bool := true

/-- The method `bool RHI_Device::SetIndexBuffer(buffer) const`. -/
def RHI_Device.SetIndexBuffer (_this : RHI_Device) (_buffer : Option Nat) : Bool := true

/-- The method `bool RHI_Device::SetVertexShader(shader) const`. -/
def RHI_Device.SetVertexShader (_this : RHI_Device) (_shader : Option Nat) : Bool := true

/-- The method `bool RHI_Device::SetPixelShader(shader) const`. -/
def RHI_Device.SetPixelShader (_this : RHI_Device) (_shader : Option Nat) : Bool := true

/-- The method `bool RHI_Device::SetConstantBuffers(start_slot, buffer_count, buffer, scope) const`. -/
def RHI_Device.SetConstantBuffers (_this : RHI_Device) (_start_slot _buffer_count : Nat)
    (_buffer : Option Nat) (_scope : Nat) : Bool := true

/-- The method `bool RHI_Device::SetSamplers(start_slot, sampler_count, samplers) const`. -/
def RHI_Device.SetSamplers (_this : RHI_Device) (_start_slot _sampler_count : Nat)
    (_samplers : Option Nat) : Bool := true

/-- The method `bool RHI_Device::SetRenderTargets(render_target_count, render_targets,
depth_stencil) const`. -/
def RHI_Device.SetRenderTargets (_this : RHI_Device) (_render_target_count : Nat)
    (_render_targets _depth_stencil : Option Nat) : Bool := true

/-- The method `bool RHI_Device::SetTextures(start_slot, resource_count, shader_resources) const`. -/
def RHI_Device.SetTextures (_this : RHI_Device) (_start_slot _resource_count : Nat)
    (_shader_resources : Option Nat) : Bool := true

/-- The method `bool RHI_Device::SetViewport(viewport) const`; the viewport type is
declared outside the translated sources and is left generic. -/
def RHI_Device.SetViewport {RHI_Viewport : Type} (_this : RHI_Device)
    (_viewport : RHI_Viewport) : Bool := true

/-- The method `bool RHI_Device::SetScissorRectangle(rectangle) const`; the rectangle
type is declared outside the translated sources and is left generic. -/
def RHI_Device.SetScissorRectangle {Rectangle : Type} (_this : RHI_Device)
    (_rectangle : Rectangle) : Bool := true

/-- The method `bool RHI_Device::SetDepthStencilState(depth_stencil_state) const`. -/
def RHI_Device.SetDepthStencilState (_this : RHI_Device)
    (_depth_stencil_state : Option Nat) : Bool := true

/-- The method `bool RHI_Device::SetBlendState(blend_state) const`. -/
def RHI_Device.SetBlendState (_this : RHI_Device) (_blend_state : Option Nat) : Bool := true

/-- The method `bool RHI_Device::SetPrimitiveTopology(primitive_topology) const`. -/
def RHI_Device.SetPrimitiveTopology (_this : RHI_Device) (_primitive_topology : Nat) :
    Bool := true

/-- The method `bool RHI_Device::SetInputLayout(input_layout) const`. -/
def RHI_Device.SetInputLayout (_this : RHI_Device) (_input_layout : Option Nat) : Bool := true

/-- The method `bool RHI_Device::SetRasterizerState(rasterizer_state) const`. -/
def RHI_Device.SetRasterizerState (_this : RHI_Device) (_rasterizer_state : Option Nat) :
    Bool := true

/-! ## Example inputs -/

/-- Example runtime: instance creation succeeds, the messenger entry point exists and
messenger creation succeeds, no validation layer is available, and physical-adapter
enumeration reports zero adapters. -/
def noAdapterRuntime : VulkanRuntime :=
  { availableLayers := [],
    createInstanceResult := 0,
    availableExtensions := ["VK_KHR_surface"],
    createMessengerEntryPoint := true,
    createMessengerResult := 0,
    physicalDevices := [] }

/-- Example runtime: as `noAdapterRuntime`, with one adapter of handle `1` reporting the
device type `VK_PHYSICAL_DEVICE_TYPE_VIRTUAL_GPU`. -/
def virtualGpuRuntime : VulkanRuntime :=
  { availableLayers := [],
    createInstanceResult := 0,
    availableExtensions := ["VK_KHR_surface"],
    createMessengerEntryPoint := true,
    createMessengerResult := 0,
    physicalDevices := [{ handle := 1, deviceType := 3 }] }

/-- Example runtime: as `noAdapterRuntime`, with the single available layer
`VK_LAYER_LUNARG_standard_validation`. -/
def oneLayerRuntime : VulkanRuntime :=
  { availableLayers := [{ layerName := "VK_LAYER_LUNARG_standard_validation" }],
    createInstanceResult := 0,
    availableExtensions := ["VK_KHR_surface"],
    createMessengerEntryPoint := true,
    createMessengerResult := 0,
    physicalDevices := [] }

/-- Example shader: a two-byte constant buffer whose `Map` succeeds and whose `Unmap`
reports failure. -/
def unmapFailingShader : RHI_Shader :=
  { m_macros := MacroTable.empty,
    m_constant_buffer := some { memory := [0, 0], map_succeeds := true, unmap_succeeds := false },
    m_buffer_size := 2 }

/-- Example shader: a three-byte constant buffer whose `Map` and `Unmap` both succeed,
with a payload size of two bytes. -/
def workingShader : RHI_Shader :=
  { m_macros := MacroTable.empty,
    m_constant_buffer := some { memory := [1, 2, 3], map_succeeds := true, unmap_succeeds := true },
    m_buffer_size := 2 }

/-- Example shader without a constant buffer. -/
def bufferlessShader : RHI_Shader :=
  { m_macros := MacroTable.empty, m_constant_buffer := none, m_buffer_size := 4 }

/-! ## Properties of the macro table -/

theorem MacroEntries.keys_assign (es : MacroEntries) (key value : String) :
    (es.assign key value).map Prod.fst = es.map Prod.fst := by
  induction es with
  | nil => rfl
  | cons e es ih =>
    simp only [MacroEntries.assign, List.map_cons] at ih ⊢
    rw [ih]
    by_cases h : e.1 = key <;> simp [h]

theorem MacroEntries.mem_keys_subscript (es : MacroEntries) (key : String) :
    key ∈ (es.subscript key).map Prod.fst := by
  unfold MacroEntries.subscript
  by_cases hk : key ∈ es.map Prod.fst
  · rw [if_pos hk]; exact hk
  · rw [if_neg hk]; simp

theorem MacroEntries.filter_assign_of_not_mem (es : MacroEntries) (key value : String)
    (hk : key ∉ es.map Prod.fst) :
    (es.assign key value).filter (fun e => decide (e.1 = key)) = [] := by
  induction es with
  | nil => rfl
  | cons e es ih =>
    have hne : ¬ e.1 = key := fun h => hk (by simp [h])
    have hrest : key ∉ es.map Prod.fst := fun h => hk (by simp [List.mem_map] at h ⊢; exact Or.inr h)
    have ih' := ih hrest
    simp only [MacroEntries.assign] at ih' ⊢
    simp [List.filter_cons, hne, ih']

theorem MacroEntries.filter_assign_of_mem (es : MacroEntries) (key value : String)
    (hnd : (es.map Prod.fst).Nodup) (hk : key ∈ es.map Prod.fst) :
    (es.assign key value).filter (fun e => decide (e.1 = key)) = [(key, value)] := by
  induction es with
  | nil => simp at hk
  | cons e es ih =>
    rw [List.map_cons, List.nodup_cons] at hnd
    by_cases he : e.1 = key
    · have hrest : key ∉ es.map Prod.fst := he ▸ hnd.1
      have h0 := MacroEntries.filter_assign_of_not_mem es key value hrest
      simp only [MacroEntries.assign] at h0 ⊢
      simp [List.filter_cons, he, h0]
    · have hrest : key ∈ es.map Prod.fst := by
        rw [List.map_cons, List.mem_cons] at hk
        rcases hk with h | h
        · exact absurd h.symm he
        · exact h
      have h1 := ih hnd.2 hrest
      simp only [MacroEntries.assign] at h1 ⊢
      simp [List.filter_cons, he, h1]

/-- C1: for every shader (macro table), every macro name `n` and all values `v1`, `v2`,
`AddDefine(n, v1)` followed by `AddDefine(n, v2)` leaves exactly one entry for `n` in the
macro table, and that entry carries `v2`. -/
theorem AddDefine_last_write_wins (s : RHI_Shader) (n v1 v2 : String) :
    ((s.AddDefine n v1).AddDefine n v2).m_macros.entriesFor n = [(n, v2)] := by
  have hnd := ((s.AddDefine n v1).AddDefine n v2).m_macros.keys_unique
  simp only [RHI_Shader.AddDefine, MacroTable.set, MacroTable.entriesFor] at hnd ⊢
  rw [MacroEntries.keys_assign] at hnd
  exact MacroEntries.filter_assign_of_mem _ n v2 hnd (MacroEntries.mem_keys_subscript _ n)

/-! ## Properties of `UpdateBuffer` -/

/-- C2: for every shader state, `UpdateBuffer` called with a null data pointer returns
false, performs no memory copy, calls neither `Map` nor `Unmap`, and leaves the
constant buffer (if any) as it was. -/
theorem UpdateBuffer_null_data (s : RHI_Shader) :
    (s.UpdateBuffer none).result = false ∧
    (∀ n, BufferOp.Memcpy n ∉ (s.UpdateBuffer none).ops) ∧
    BufferOp.Map ∉ (s.UpdateBuffer none).ops ∧
    BufferOp.Unmap ∉ (s.UpdateBuffer none).ops ∧
    (s.UpdateBuffer none).constant_buffer = s.m_constant_buffer := by
  simp [RHI_Shader.UpdateBuffer]

/-- C3: for every non-null data pointer, `UpdateBuffer` on a shader that has no constant
buffer returns false, calls neither `Map` nor `Unmap`, and copies no bytes. -/
theorem UpdateBuffer_no_constant_buffer (s : RHI_Shader) (data : List Nat)
    (h : s.m_constant_buffer = none) :
    (s.UpdateBuffer (some data)).result = false ∧
    BufferOp.Map ∉ (s.UpdateBuffer (some data)).ops ∧
    BufferOp.Unmap ∉ (s.UpdateBuffer (some data)).ops ∧
    (∀ n, BufferOp.Memcpy n ∉ (s.UpdateBuffer (some data)).ops) ∧
    (s.UpdateBuffer (some data)).constant_buffer = none := by
  simp [RHI_Shader.UpdateBuffer, h]

/-- Witness of C3 on a shader without a constant buffer and the data bytes `5, 6, 7, 8`. -/
theorem UpdateBuffer_no_constant_buffer_witness :
    bufferlessShader.m_constant_buffer = none ∧
    (bufferlessShader.UpdateBuffer (some [5, 6, 7, 8])).result = false ∧
    BufferOp.Map ∉ (bufferlessShader.UpdateBuffer (some [5, 6, 7, 8])).ops ∧
    BufferOp.Unmap ∉ (bufferlessShader.UpdateBuffer (some [5, 6, 7, 8])).ops ∧
    (∀ n, BufferOp.Memcpy n ∉ (bufferlessShader.UpdateBuffer (some [5, 6, 7, 8])).ops) ∧
    (bufferlessShader.UpdateBuffer (some [5, 6, 7, 8])).constant_buffer = none :=
  ⟨rfl, UpdateBuffer_no_constant_buffer bufferlessShader [5, 6, 7, 8] rfl⟩

theorem memcpy_take (dst src : List Nat) (n : Nat) (hsrc : n ≤ src.length) :
    (memcpy dst src n).take n = src.take n := by
  unfold memcpy
  rw [List.take_append_of_le_length (by simp [hsrc])]
  simp [List.take_take]

theorem memcpy_drop (dst src : List Nat) (n : Nat) (hsrc : n ≤ src.length) :
    (memcpy dst src n).drop n = dst.drop n := by
  unfold memcpy
  have hlen : (src.take n).length = n := by simp [hsrc]
  rw [List.drop_append_eq_append_drop, hlen, Nat.sub_self, List.drop_zero,
    List.drop_eq_nil_of_le (le_of_eq hlen), List.nil_append]

theorem memcpy_length (dst src : List Nat) (n : Nat) (hsrc : n ≤ src.length)
    (hdst : n ≤ dst.length) : (memcpy dst src n).length = dst.length := by
  unfold memcpy
  simp only [List.length_append, List.length_take, List.length_drop]
  omega

/-- C4: for non-null data and a shader that has a constant buffer (data and buffer each
holding at least `m_buffer_size` bytes), `UpdateBuffer` calls `Map` once. If `Map` yields
a pointer, exactly the first `m_buffer_size` bytes of the mapped memory are replaced by
those of `data`, then `Unmap` is called once; if `Map` yields null there is no copy and
no `Unmap`, the buffer is untouched and the result is false. The result is true exactly
when `Map` yielded a pointer and `Unmap` returned true. -/
theorem UpdateBuffer_with_constant_buffer (s : RHI_Shader) (cb : RHI_ConstantBuffer)
    (data : List Nat) (h : s.m_constant_buffer = some cb)
    (hsrc : s.m_buffer_size ≤ data.length) (hdst : s.m_buffer_size ≤ cb.memory.length) :
    (s.UpdateBuffer (some data)).ops.count BufferOp.Map = 1 ∧
    ((s.UpdateBuffer (some data)).result = true ↔
      (cb.Map.isSome = true ∧ cb.Unmap = true)) ∧
    (if cb.Map.isSome = true then
      (s.UpdateBuffer (some data)).ops =
          [BufferOp.Map, BufferOp.Memcpy s.m_buffer_size, BufferOp.Unmap] ++
          (if cb.Unmap = true then []
           else [BufferOp.Log Log_Type.Log_Error "Failed to map buffer"]) ∧
        (s.UpdateBuffer (some data)).ops.count BufferOp.Unmap = 1 ∧
        (bufferMemory (s.UpdateBuffer (some data)).constant_buffer).take s.m_buffer_size =
          data.take s.m_buffer_size ∧
        (bufferMemory (s.UpdateBuffer (some data)).constant_buffer).drop s.m_buffer_size =
          cb.memory.drop s.m_buffer_size ∧
        (bufferMemory (s.UpdateBuffer (some data)).constant_buffer).length = cb.memory.length
     else
      (s.UpdateBuffer (some data)).ops =
          [BufferOp.Map, BufferOp.Log Log_Type.Log_Error "Failed to map buffer"] ∧
        (s.UpdateBuffer (some data)).constant_buffer = some cb ∧
        (s.UpdateBuffer (some data)).result = false) := by
  obtain ⟨memory, map_ok, unmap_ok⟩ := cb
  cases map_ok <;> cases unmap_ok <;>
    simp [RHI_Shader.UpdateBuffer, h, RHI_ConstantBuffer.Map, RHI_ConstantBuffer.Unmap,
      bufferMemory, memcpy_take _ _ _ hsrc, memcpy_drop _ _ _ hsrc,
      memcpy_length _ _ _ hsrc hdst, List.count_cons, List.count_nil]

/-- Witness of C4 on a three-byte buffer `1, 2, 3` with payload size two, updated with
the bytes `7, 9`. -/
theorem UpdateBuffer_with_constant_buffer_witness :
    (workingShader.UpdateBuffer (some [7, 9])).result = true ∧
    bufferMemory (workingShader.UpdateBuffer (some [7, 9])).constant_buffer = [7, 9, 3] ∧
    (workingShader.UpdateBuffer (some [7, 9])).ops.count BufferOp.Map = 1 :=
  ⟨by decide, by decide,
    (UpdateBuffer_with_constant_buffer workingShader
      { memory := [1, 2, 3], map_succeeds := true, unmap_succeeds := true } [7, 9]
      rfl (by decide) (by decide)).1⟩

/-- C5, refuted as stated: on a two-byte buffer holding `0, 0` whose `Map` succeeds and
whose `Unmap` reports failure, `UpdateBuffer` with the bytes `7, 9` reports failure and
yet the buffer holds `7, 9` afterwards. Neither alternative of the claim holds. -/
theorem UpdateBuffer_partial_write_counterexample :
    ¬ ((unmapFailingShader.UpdateBuffer (some [7, 9])).result = true ∨
       ((unmapFailingShader.UpdateBuffer (some [7, 9])).result = false ∧
        bufferMemory (unmapFailingShader.UpdateBuffer (some [7, 9])).constant_buffer =
          bufferMemory unmapFailingShader.m_constant_buffer)) := by
  decide

/-- C5, amended: every call of `UpdateBuffer` ends in one of three ways. It reports
success after `Map`, the full copy of `m_buffer_size` bytes and `Unmap`. Or it reports
failure with the constant buffer untouched, which happens exactly when the data pointer
is null, there is no constant buffer, or `Map` yields null. Or `Map` succeeded, the
full copy was written, `Unmap` reported failure, and the call reports failure with the
copied bytes left in the buffer. -/
theorem UpdateBuffer_outcomes (s : RHI_Shader) (data : Option (List Nat)) :
    ((s.UpdateBuffer data).result = true ∧
      ∃ cb bytes, data = some bytes ∧ s.m_constant_buffer = some cb ∧
        cb.Map = some cb.memory ∧ cb.Unmap = true ∧
        (s.UpdateBuffer data).ops =
          [BufferOp.Map, BufferOp.Memcpy s.m_buffer_size, BufferOp.Unmap] ∧
        bufferMemory (s.UpdateBuffer data).constant_buffer =
          memcpy cb.memory bytes s.m_buffer_size) ∨
    ((s.UpdateBuffer data).result = false ∧
      (data = none ∨ s.m_constant_buffer = none ∨
        ∃ cb, s.m_constant_buffer = some cb ∧ cb.Map = none) ∧
      (∀ n, BufferOp.Memcpy n ∉ (s.UpdateBuffer data).ops) ∧
      (s.UpdateBuffer data).constant_buffer = s.m_constant_buffer) ∨
    ((s.UpdateBuffer data).result = false ∧
      ∃ cb bytes, data = some bytes ∧ s.m_constant_buffer = some cb ∧
        cb.Map = some cb.memory ∧ cb.Unmap = false ∧
        (s.UpdateBuffer data).ops =
          [BufferOp.Map, BufferOp.Memcpy s.m_buffer_size, BufferOp.Unmap,
           BufferOp.Log Log_Type.Log_Error "Failed to map buffer"] ∧
        bufferMemory (s.UpdateBuffer data).constant_buffer =
          memcpy cb.memory bytes s.m_buffer_size) := by
  obtain ⟨macros, buffer, size⟩ := s
  cases data with
  | none => right; left; simp [RHI_Shader.UpdateBuffer]
  | some bytes =>
    cases buffer with
    | none => right; left; simp [RHI_Shader.UpdateBuffer]
    | some cb =>
      obtain ⟨memory, map_ok, unmap_ok⟩ := cb
      cases map_ok <;> cases unmap_ok <;>
        simp [RHI_Shader.UpdateBuffer, RHI_ConstantBuffer.Map, RHI_ConstantBuffer.Unmap,
          bufferMemory]

/-! ## Properties of the Vulkan device -/

theorem isDeviceSuitable_fst (device : VkPhysicalDevice) :
    (isDeviceSuitable device).1 = true := by
  simp [isDeviceSuitable, cTruth, VK_PHYSICAL_DEVICE_TYPE_INTEGRATED_GPU]

theorem selectDevice_cons (device : VkPhysicalDevice) (rest : List VkPhysicalDevice) :
    selectDevice (device :: rest) = (device.handle, (isDeviceSuitable device).2) := by
  simp [selectDevice, isDeviceSuitable_fst]

/-- C9: for every native severity value handed to the Vulkan debug callback, the log
level is Warning when the value equals the warning bit, Error when it equals the error
bit, and Info for every other value; the logged text is the message behind the tag
`Vulkan: `, and the callback returns `VK_FALSE`. -/
theorem debugCallback_severity (messageSeverity messageType : Nat) (pMessage : String) :
    (debugCallback messageSeverity messageType pMessage).type =
      (if messageSeverity = VK_DEBUG_UTILS_MESSAGE_SEVERITY_WARNING_BIT_EXT
        then Log_Type.Log_Warning
       else if messageSeverity = VK_DEBUG_UTILS_MESSAGE_SEVERITY_ERROR_BIT_EXT
        then Log_Type.Log_Error
       else Log_Type.Log_Info) ∧
    (debugCallback messageSeverity messageType pMessage).text = "Vulkan: " ++ pMessage ∧
    (debugCallback messageSeverity messageType pMessage).returned = VK_FALSE := by
  refine ⟨?_, rfl, rfl⟩
  simp only [debugCallback]
  by_cases hw : messageSeverity = VK_DEBUG_UTILS_MESSAGE_SEVERITY_WARNING_BIT_EXT
  · have hne : ¬ VK_DEBUG_UTILS_MESSAGE_SEVERITY_WARNING_BIT_EXT =
        VK_DEBUG_UTILS_MESSAGE_SEVERITY_ERROR_BIT_EXT := by decide
    simp [hw, hne]
  · simp [hw]

/-- C10: `isDeviceSuitable` returns true for every physical adapter whatever device type
it reports, so the selection loop of the constructor stores the handle of the first
enumerated adapter. -/
theorem isDeviceSuitable_always (device : VkPhysicalDevice)
    (rest : List VkPhysicalDevice) :
    (isDeviceSuitable device).1 = true ∧
    (selectDevice (device :: rest)).1 = device.handle := by
  constructor
  · simp [isDeviceSuitable, cTruth, VK_PHYSICAL_DEVICE_TYPE_INTEGRATED_GPU]
  · simp [selectDevice, isDeviceSuitable, cTruth, VK_PHYSICAL_DEVICE_TYPE_INTEGRATED_GPU]

/-- C6, refuted as stated: the device constructed against a runtime that enumerates zero
adapters is left uninitialised, yet `Draw`, `DrawIndexed` and `SetVertexBuffer` on it
do not return false. -/
theorem Draw_after_failed_construction_counterexample :
    noAdapterRuntime.physicalDevices.length = 0 ∧
    ¬ ((RHI_Device.construct true noAdapterRuntime "").m_initialized = false ∧
       (RHI_Device.construct true noAdapterRuntime "").Draw 3 = false ∧
       (RHI_Device.construct true noAdapterRuntime "").DrawIndexed 3 0 0 = false ∧
       (RHI_Device.construct true noAdapterRuntime "").SetVertexBuffer (some 1) = false) := by
  refine ⟨rfl, ?_⟩
  simp [RHI_Device.Draw]

/-- C6, amended: a device constructed when physical-adapter enumeration reports zero
adapters has `m_initialized == false` afterwards; `Draw`, `DrawIndexed` and every `Set*`
call on it return true, whatever their arguments. -/
theorem construct_zero_adapters (validationLayerEnabled : Bool) (vk : VulkanRuntime)
    (settings : String) (h : vk.physicalDevices.length = 0) :
    (RHI_Device.construct validationLayerEnabled vk settings).m_initialized = false ∧
    (∀ n, (RHI_Device.construct validationLayerEnabled vk settings).Draw n = true) ∧
    (∀ a b c, (RHI_Device.construct validationLayerEnabled vk settings).DrawIndexed a b c
      = true) ∧
    (∀ b, (RHI_Device.construct validationLayerEnabled vk settings).SetVertexBuffer b
      = true) ∧
    (∀ b, (RHI_Device.construct validationLayerEnabled vk settings).SetIndexBuffer b
      = true) ∧
    (∀ x, (RHI_Device.construct validationLayerEnabled vk settings).SetVertexShader x
      = true) ∧
    (∀ x, (RHI_Device.construct validationLayerEnabled vk settings).SetPixelShader x
      = true) ∧
    (∀ a b c d, (RHI_Device.construct validationLayerEnabled vk settings).SetConstantBuffers
      a b c d = true) ∧
    (∀ a b c, (RHI_Device.construct validationLayerEnabled vk settings).SetSamplers a b c
      = true) ∧
    (∀ a b c, (RHI_Device.construct validationLayerEnabled vk settings).SetRenderTargets
      a b c = true) ∧
    (∀ a b c, (RHI_Device.construct validationLayerEnabled vk settings).SetTextures a b c
      = true) ∧
    (∀ (V : Type) (v : V), (RHI_Device.construct validationLayerEnabled vk settings).SetViewport
      v = true) ∧
    (∀ (R : Type) (r : R),
      (RHI_Device.construct validationLayerEnabled vk settings).SetScissorRectangle r
      = true) ∧
    (∀ x, (RHI_Device.construct validationLayerEnabled vk settings).SetDepthStencilState x
      = true) ∧
    (∀ x, (RHI_Device.construct validationLayerEnabled vk settings).SetBlendState x
      = true) ∧
    (∀ x, (RHI_Device.construct validationLayerEnabled vk settings).SetPrimitiveTopology x
      = true) ∧
    (∀ x, (RHI_Device.construct validationLayerEnabled vk settings).SetInputLayout x
      = true) ∧
    (∀ x, (RHI_Device.construct validationLayerEnabled vk settings).SetRasterizerState x
      = true) := by
  refine ⟨?_, fun _ => rfl, fun _ _ _ => rfl, fun _ => rfl, fun _ => rfl, fun _ => rfl,
    fun _ => rfl, fun _ _ _ _ => rfl, fun _ _ _ => rfl, fun _ _ _ => rfl, fun _ _ _ => rfl,
    fun _ _ => rfl, fun _ _ => rfl, fun _ => rfl, fun _ => rfl, fun _ => rfl, fun _ => rfl,
    fun _ => rfl⟩
  unfold RHI_Device.construct
  by_cases hinst : vk.createInstanceResult = VK_SUCCESS <;> simp [hinst, h]

/-- Witness of the amended C6 on a runtime that enumerates zero adapters. -/
theorem construct_zero_adapters_witness :
    noAdapterRuntime.physicalDevices.length = 0 ∧
    (RHI_Device.construct true noAdapterRuntime "").m_initialized = false ∧
    (RHI_Device.construct true noAdapterRuntime "").Draw 3 = true :=
  ⟨rfl, (construct_zero_adapters true noAdapterRuntime "" rfl).1,
    (construct_zero_adapters true noAdapterRuntime "" rfl).2.1 3⟩

/-- C8, refuted as stated: with validation layers requested and none available, instance
creation and adapter selection succeeding, the constructor still performs the
debug-messenger creation and a messenger is created. -/
theorem construct_messenger_counterexample :
    (AcquireValidationLayers virtualGpuRuntime validationLayers).1 = false ∧
    (RHI_Device.construct true virtualGpuRuntime "").m_initialized = true ∧
    ¬ ((RHI_Device.construct true virtualGpuRuntime "").callback_created = false ∧
       DeviceOp.vkCreateDebugUtilsMessengerEXT ∉
         (RHI_Device.construct true virtualGpuRuntime "").ops) := by
  decide

/-- C8, amended: when validation layers are requested and the availability check fails,
instance creation is attempted with zero enabled layers, and construction succeeds
whenever instance creation succeeds and a non-null adapter is enumerated. The
debug-messenger creation is still performed once the instance exists, because it is
guarded by `validationLayerEnabled` alone: the entry point is looked up, the native
creation is called exactly when the entry point exists, and a messenger is created
exactly when that call returns `VK_SUCCESS`. -/
theorem construct_layers_unavailable (vk : VulkanRuntime) (settings : String)
    (hacq : (AcquireValidationLayers vk validationLayers).1 = false) :
    DeviceOp.vkCreateInstance 0 extensions ∈ (RHI_Device.construct true vk settings).ops ∧
    (∀ n e, DeviceOp.vkCreateInstance n e ∈ (RHI_Device.construct true vk settings).ops →
      n = 0) ∧
    (vk.createInstanceResult = VK_SUCCESS → vk.physicalDevices ≠ [] →
      (∀ d ∈ vk.physicalDevices, d.handle ≠ VK_NULL_HANDLE) →
      (RHI_Device.construct true vk settings).m_initialized = true) ∧
    (vk.createInstanceResult = VK_SUCCESS →
      DeviceOp.vkGetInstanceProcAddr "vkCreateDebugUtilsMessengerEXT" ∈
        (RHI_Device.construct true vk settings).ops ∧
      (DeviceOp.vkCreateDebugUtilsMessengerEXT ∈ (RHI_Device.construct true vk settings).ops ↔
        vk.createMessengerEntryPoint = true) ∧
      ((RHI_Device.construct true vk settings).callback_created = true ↔
        (vk.createMessengerEntryPoint = true ∧ vk.createMessengerResult = VK_SUCCESS))) := by
  have hany : anyLayerAvailable vk.availableLayers validationLayers = false := by
    unfold AcquireValidationLayers at hacq
    by_cases h : anyLayerAvailable vk.availableLayers validationLayers = true
    · simp [h] at hacq
    · simpa using h
  have herr : ¬ VK_ERROR_EXTENSION_NOT_PRESENT = VK_SUCCESS := by decide
  by_cases hinst : vk.createInstanceResult = VK_SUCCESS
  · cases hentry : vk.createMessengerEntryPoint <;>
      by_cases hres : vk.createMessengerResult = VK_SUCCESS <;>
      cases hdev : vk.physicalDevices with
      | nil =>
        simp [RHI_Device.construct, AcquireValidationLayers, CreateDebugUtilsMessengerEXT,
          hany, hinst, hentry, hres, hdev, herr]
      | cons d ds =>
        by_cases hd : d.handle = VK_NULL_HANDLE <;>
          simp [RHI_Device.construct, AcquireValidationLayers, CreateDebugUtilsMessengerEXT,
            hany, hinst, hentry, hres, hdev, herr, selectDevice_cons, isDeviceSuitable, hd]
  · simp [RHI_Device.construct, AcquireValidationLayers, hany, hinst]

/-- Witness of the amended C8 on a runtime without validation layers and one adapter:
the instance is created with zero layers, the device is initialised and a messenger is
created. -/
theorem construct_layers_unavailable_witness :
    (AcquireValidationLayers virtualGpuRuntime validationLayers).1 = false ∧
    DeviceOp.vkCreateInstance 0 extensions ∈
      (RHI_Device.construct true virtualGpuRuntime "").ops ∧
    (RHI_Device.construct true virtualGpuRuntime "").callback_created = true :=
  ⟨by decide, (construct_layers_unavailable virtualGpuRuntime "" (by decide)).1,
    ((construct_layers_unavailable virtualGpuRuntime "" (by decide)).2.2.2 rfl).2.2.mpr
      ⟨rfl, rfl⟩⟩

/-! ## Properties of `AcquireValidationLayers` -/

theorem strcmp_eq_zero_iff (a b : String) : strcmp a b = 0 ↔ a = b := by
  unfold strcmp
  by_cases h : a = b
  · simp [h]
  · by_cases hlt : a < b <;> simp [h, hlt]

theorem layerAvailable_iff (layerName : String) (availableLayers : List VkLayerProperties) :
    layerAvailable layerName availableLayers = true ↔
      ∃ p ∈ availableLayers, layerName = p.layerName := by
  induction availableLayers with
  | nil => simp [layerAvailable]
  | cons p rest ih =>
    by_cases h : layerName = p.layerName
    · have h0 : strcmp layerName p.layerName = 0 := (strcmp_eq_zero_iff _ _).mpr h
      simp only [layerAvailable, h0, if_true, true_iff]
      exact ⟨p, by simp, h⟩
    · have h0 : ¬ strcmp layerName p.layerName = 0 :=
        fun hz => h ((strcmp_eq_zero_iff _ _).mp hz)
      simp [layerAvailable, h0, h, ih]

theorem anyLayerAvailable_iff (availableLayers : List VkLayerProperties)
    (requested : List String) :
    anyLayerAvailable availableLayers requested = true ↔
      ∃ n ∈ requested, ∃ p ∈ availableLayers, n = p.layerName := by
  induction requested with
  | nil => simp [anyLayerAvailable]
  | cons n rest ih =>
    by_cases h : layerAvailable n availableLayers = true
    · have hex := (layerAvailable_iff n availableLayers).mp h
      simp only [anyLayerAvailable, h, if_true, true_iff]
      exact ⟨n, by simp, hex⟩
    · have hno : ¬ ∃ p ∈ availableLayers, n = p.layerName :=
        fun hex => h ((layerAvailable_iff n availableLayers).mpr hex)
      simp only [anyLayerAvailable, h, if_false, Bool.false_eq_true, ih]
      constructor
      · rintro ⟨m, hm, hp⟩
        exact ⟨m, by simp [hm], hp⟩
      · rintro ⟨m, hm, hp⟩
        rw [List.mem_cons] at hm
        rcases hm with hm | hm
        · exact absurd (hm ▸ hp) hno
        · exact ⟨m, hm, hp⟩

/-- C11: for every list of requested layer names and every list of available layers,
`AcquireValidationLayers` returns true if and only if at least one requested name equals
the name of some available layer; it returns false for an empty request list and for an
empty list of available layers. -/
theorem AcquireValidationLayers_iff (vk : VulkanRuntime) (requested : List String) :
    ((AcquireValidationLayers vk requested).1 = true ↔
      ∃ n ∈ requested, ∃ p ∈ vk.availableLayers, n = p.layerName) ∧
    (AcquireValidationLayers vk []).1 = false ∧
    (AcquireValidationLayers { vk with availableLayers := [] } requested).1 = false := by
  have hfst : ∀ (r : VulkanRuntime) (l : List String),
      (AcquireValidationLayers r l).1 = anyLayerAvailable r.availableLayers l := by
    intro r l
    unfold AcquireValidationLayers
    by_cases h : anyLayerAvailable r.availableLayers l = true
    · simp [h]
    · simp [h]
  refine ⟨?_, ?_, ?_⟩
  · rw [hfst]
    exact anyLayerAvailable_iff vk.availableLayers requested
  · rw [hfst]
    rfl
  · rw [hfst]
    cases hany : anyLayerAvailable [] requested with
    | false => rfl
    | true =>
      obtain ⟨_, _, _, hp, _⟩ := (anyLayerAvailable_iff [] requested).mp hany
      simp at hp

/-- One match is enough: with a single available layer, a request that names that layer
together with a layer that is not available is acquired, while a request naming only
the unavailable layer is not. -/
theorem AcquireValidationLayers_one_of_two :
    (AcquireValidationLayers oneLayerRuntime
      ["VK_LAYER_KHRONOS_validation", "VK_LAYER_LUNARG_standard_validation"]).1 = true ∧
    (AcquireValidationLayers oneLayerRuntime ["VK_LAYER_KHRONOS_validation"]).1 = false := by
  simp [AcquireValidationLayers, anyLayerAvailable, layerAvailable, strcmp_eq_zero_iff,
    oneLayerRuntime]

end Directus
